import Mathlib

/-!
Verification of the session-gated network-analysis dashboard (`app.py`).

The embedding models the Flask session as an association list of string
keys to boolean values (the only value the app ever stores is `True`),
HTTP responses as an inductive type, the JSON artifacts as a small JSON
value type, and the module-level try/except artifact load as explicit
`Except` results for each of the three reads.  The plotting collaborator
(`util.plot_*`) is not part of this repository; per the spec it degrades
gracefully on any input, so each `plot_*` call is modelled as a total
constructor recording its inputs.
-/

namespace NetworkAnalyzer

/-- A Flask server-side session: a dictionary from keys to values.  The
only key this app uses is `"logged_in"` and the only value it stores is
`True`, so values are booleans. -/
structure Session where
  entries : List (String × Bool)
deriving DecidableEq, Repr

/-- Dictionary lookup (`session.get(k)`): the value at the first matching
key, or `none` when the key is absent. -/
def lookupEntry : List (String × Bool) → String → Option Bool
  | [], _ => none
  | (k', v) :: rest, k => if k' == k then some v else lookupEntry rest k

/-- Dictionary assignment (`session[k] = v`): replace the value at an
existing key in place, otherwise append the new binding. -/
def setEntry : List (String × Bool) → String → Bool → List (String × Bool)
  | [], k, v => [(k, v)]
  | (k', v') :: rest, k, v =>
    if k' == k then (k, v) :: rest else (k', v') :: setEntry rest k v

/-- `session.get(k)`. -/
def Session.get (s : Session) (k : String) : Option Bool :=
  lookupEntry s.entries k

/-- `session[k] = v`. -/
def Session.set (s : Session) (k : String) (v : Bool) : Session :=
  ⟨setEntry s.entries k v⟩

/-- `session.clear()` leaves an empty session. -/
def Session.cleared : Session := ⟨[]⟩

/-- Python truthiness of `session.get(k)`: `None` is falsy, a stored
boolean is its own truth value. -/
def truthy : Option Bool → Bool
  | none => false
  | some b => b

/-- Python truthiness of a form field (`request.form.get` returns `None`
when the field is absent, and a string otherwise; a string is truthy iff
non-empty). -/
def truthyStr : Option String → Bool
  | none => false
  | some s => ! s.isEmpty

/-- An HTTP response produced by this app: a redirect, the rendered login
template (with its optional inline error message), or some other page
body (standing for any normal handler output). -/
inductive Response where
  | redirect (location : String)
  | loginTemplate (error : Option String)
  | page (body : String)
deriving DecidableEq, Repr

/-- Python `s.startswith(pre)`: `pre` is a character-wise prefix of `s`. -/
def pyStartsWith (s pre : String) : Bool :=
  pre.data.isPrefixOf s.data

/-- `protect_routes` (`app.py` lines 46-50): the `before_request` gate.
It returns the short-circuit response (if any) together with the session
as it leaves it. -/
def protect_routes (path : String) (s : Session) : Option Response × Session :=
  if pyStartsWith path "/dashboard" || pyStartsWith path "/_dash" then
    if ! truthy (s.get "logged_in") then (some (Response.redirect "/"), s)
    else (none, s)
  else (none, s)

/-- Flask request dispatch for a gated request: if `protect_routes`
returns a response, that response is sent and the route handler is never
invoked; otherwise the normal handler's response is sent. -/
def handleRequest (path : String) (s : Session) (handler : Response) : Response :=
  match (protect_routes path s).1 with
  | some r => r
  | none => handler

/-- `login` (`app.py` lines 23-30): the `POST /login` handler.  Takes the
two form fields (absent fields arrive as `none`) and the current session;
returns the session it leaves behind and the response. -/
def login (username password : Option String) (s : Session) : Session × Response :=
  if truthyStr username && truthyStr password then
    (s.set "logged_in" true, Response.redirect "/dashboard/")
  else
    (s, Response.loginTemplate (some "Please enter any username and password"))

/-- `logout` (`app.py` lines 32-35): clears the whole session and
redirects to the login page. -/
def logout (_s : Session) : Session × Response :=
  (Session.cleared, Response.redirect "/")

/-- A JSON value as loaded by `json.load`; numbers are modelled as
integers (no claim depends on fractional numeric content). -/
inductive JVal where
  | num (n : Int)
  | str (s : String)
  | arr (elems : List JVal)
  | obj (fields : List (String × JVal))

/-- Python `d[k]` on a dict: the value, or a `KeyError` when the key is
absent (a `TypeError` when the value is not a dict at all). -/
def JVal.getItem : JVal → String → Except String JVal
  | .obj fields, k =>
    match fields.find? (fun p => p.1 == k) with
    | some p => .ok p.2
    | none => .error ("KeyError: " ++ k)
  | _, _ => .error "TypeError: value is not subscriptable by string"

/-- Python `int(k)` on a string key, as used by the dict comprehension in
`render_tab`. -/
def pyIntOfString (s : String) : Except String Int :=
  match s.toInt? with
  | some n => .ok n
  | none => .error ("ValueError: invalid literal for int: " ++ s)

/-- The comprehension `\x7bint(k): v for k, v in d.items()\x7d` from
`render_tab`: converts every key of a JSON object to an integer. -/
def intKeys : JVal → Except String (List (Int × JVal))
  | .obj fields =>
    fields.mapM (fun p => do
      let k ← pyIntOfString p.1
      pure (k, p.2))
  | _ => .error "AttributeError: items"

/-- The pandas data frame holding `user_stats`: column labels and rows of
numeric entries. -/
structure DataFrame where
  columns : List Int
  rows : List (List Int)
deriving DecidableEq, Repr

/-- `pd.DataFrame()`: the empty frame used as the fallback default. -/
def emptyDF : DataFrame := ⟨[], []⟩

/-- `user_stats.columns = labels` (`app.py` line 76): relabels the
columns; pandas raises a `ValueError` when the lengths disagree. -/
def setColumns (df : DataFrame) (labels : List Int) : Except String DataFrame :=
  if df.columns.length == labels.length then .ok ⟨labels, df.rows⟩
  else .error "ValueError: Length mismatch"

/-- The fallback cluster dictionary assigned in the `except` branch
(`app.py` line 78): only four of the nine keys `render_tab` reads. -/
def defaultGroup : JVal :=
  JVal.obj [("adjacencym", JVal.arr [JVal.arr []]),
            ("clusters", JVal.arr []),
            ("cluster_names", JVal.arr []),
            ("id_to_name", JVal.obj [])]

/-- The body of the `try` block (`app.py` lines 72-76): read the first
cluster document, then the second, then the statistics table, then
relabel its columns; the first exception aborts the rest. -/
def tryLoad (r1 r2 : Except String JVal) (rcsv : Except String DataFrame) :
    Except String (JVal × JVal × DataFrame) :=
  match r1 with
  | .error e => .error e
  | .ok g1 =>
    match r2 with
    | .error e => .error e
    | .ok g2 =>
      match rcsv with
      | .error e => .error e
      | .ok df =>
        match setColumns df [0, 1, 2, 3] with
        | .error e => .error e
        | .ok df2 => .ok (g1, g2, df2)

/-- The whole module-level load (`app.py` lines 72-79): on any exception
in the `try` body, all three structures become their empty defaults. -/
def loadData (r1 r2 : Except String JVal) (rcsv : Except String DataFrame) :
    JVal × JVal × DataFrame :=
  match tryLoad r1 r2 rcsv with
  | .ok res => res
  | .error _ => (defaultGroup, defaultGroup, emptyDF)

/-- Modelled from the spec: the plotting collaborator (`util.plot_*`, not
in this repository) "degrades gracefully on empty input" and returns a
renderable figure object for whatever it is handed, so each chart call is
a total constructor recording the inputs the composer passes it. -/
inductive Figure where
  | network (adjacency clusters names : JVal) (idToName : List (Int × JVal)) (seed : Nat)
  | clustersChart (size max min avg names : JVal)
  | closenessChart (m : JVal)
  | usersChart (df : DataFrame)

/-- One `dcc.Tab` produced by `render_tab`: its label and the figures it
embeds, in source order. -/
structure Tab where
  label : String
  figures : List Figure

/-- `render_tab` (`app.py` lines 84-128): reads the cluster dictionary's
entries in the order the Python call evaluates them and builds the tab;
any failing dict access raises out of the construction. -/
def render_tab (name : String) (res : JVal) (seed : Nat) : Except String Tab :=
  match res.getItem "adjacencym" with
  | .error e => .error e
  | .ok adj =>
  match res.getItem "clusters" with
  | .error e => .error e
  | .ok cl =>
  match res.getItem "cluster_names" with
  | .error e => .error e
  | .ok cn =>
  match res.getItem "id_to_name" with
  | .error e => .error e
  | .ok itn =>
  match intKeys itn with
  | .error e => .error e
  | .ok itn2 =>
  match res.getItem "cluster_size" with
  | .error e => .error e
  | .ok cs =>
  match res.getItem "cluster_max" with
  | .error e => .error e
  | .ok cmax =>
  match res.getItem "cluster_min" with
  | .error e => .error e
  | .ok cmin =>
  match res.getItem "cluster_avg" with
  | .error e => .error e
  | .ok cavg =>
  match res.getItem "closeness" with
  | .error e => .error e
  | .ok clo =>
    .ok ⟨name, [Figure.network adj cl cn itn2 seed,
                Figure.clustersChart cs cmax cmin cavg cn,
                Figure.closenessChart clo]⟩

/-- The full page tree (`app.py` lines 131-193): the global user-stats
chart and the two resolution tabs, both built from the same process-wide
seed; an exception in either tab aborts layout construction. -/
structure Layout where
  usersFigure : Figure
  tabs : List Tab

/-- `app.layout` construction: build both tabs with the single seed drawn
at line 81. -/
def buildLayout (g1 g2 : JVal) (df : DataFrame) (seed : Nat) : Except String Layout :=
  match render_tab "Community View (8 Clusters)" g1 seed with
  | .error e => .error e
  | .ok t1 =>
    match render_tab "Granular View (16 Clusters)" g2 seed with
    | .error e => .error e
    | .ok t2 => .ok ⟨Figure.usersChart df, [t1, t2]⟩

/-- The seed passed to the network chart of a tab (the first figure
`render_tab` builds). -/
def tabNetworkSeed : Tab → Option Nat
  | ⟨_, Figure.network _ _ _ _ s :: _⟩ => some s
  | _ => none

/-- A cluster dictionary carrying all nine keys `render_tab` reads, with
empty contents: the shape of a well-formed artifact. -/
def fullGroup : JVal :=
  JVal.obj [("adjacencym", JVal.arr [JVal.arr []]),
            ("clusters", JVal.arr []),
            ("cluster_names", JVal.arr []),
            ("id_to_name", JVal.obj []),
            ("cluster_size", JVal.arr []),
            ("cluster_max", JVal.arr []),
            ("cluster_min", JVal.arr []),
            ("cluster_avg", JVal.arr []),
            ("closeness", JVal.arr [])]

/-- The layout `buildLayout` produces from two `fullGroup` artifacts, the
empty frame and seed `7`, written out explicitly. -/
def demoLayout : Layout :=
  ⟨Figure.usersChart emptyDF,
   [⟨"Community View (8 Clusters)",
     [Figure.network (JVal.arr [JVal.arr []]) (JVal.arr []) (JVal.arr []) [] 7,
      Figure.clustersChart (JVal.arr []) (JVal.arr []) (JVal.arr []) (JVal.arr []) (JVal.arr []),
      Figure.closenessChart (JVal.arr [])]⟩,
    ⟨"Granular View (16 Clusters)",
     [Figure.network (JVal.arr [JVal.arr []]) (JVal.arr []) (JVal.arr []) [] 7,
      Figure.clustersChart (JVal.arr []) (JVal.arr []) (JVal.arr []) (JVal.arr []) (JVal.arr []),
      Figure.closenessChart (JVal.arr [])]⟩]⟩

/-- Setting a key then reading it back yields the stored value. -/
theorem lookup_setEntry (l : List (String × Bool)) (k : String) (v : Bool) :
    lookupEntry (setEntry l k v) k = some v := by
  induction l with
  | nil => simp [setEntry, lookupEntry]
  | cons hd tl ih =>
    by_cases h : hd.1 == k
    · simp [setEntry, lookupEntry, h]
    · simp [setEntry, lookupEntry, h, ih]

/-- Session version of `lookup_setEntry`. -/
theorem Session.get_set (s : Session) (k : String) (v : Bool) :
    (s.set k v).get k = some v :=
  lookup_setEntry s.entries k v

/-- A successfully built tab carries the seed it was built with in its
network figure. -/
theorem render_tab_seed (name : String) (res : JVal) (seed : Nat) (t : Tab)
    (h : render_tab name res seed = Except.ok t) :
    tabNetworkSeed t = some seed := by
  unfold render_tab at h
  repeat' split at h
  all_goals simp_all [tabNetworkSeed]
  exact h.symm ▸ rfl

/-- C1: For every request whose path starts with "/dashboard" or
"/_dash", if the session does not carry `logged_in = true`, the gate
short-circuits with a redirect to the login path and the protected
handler's response is never produced, whatever it would have been. -/
theorem gate_blocks_unauthenticated (path : String) (s : Session) (handler : Response)
    (hpath : pyStartsWith path "/dashboard" = true ∨ pyStartsWith path "/_dash" = true)
    (hs : truthy (s.get "logged_in") = false) :
    (protect_routes path s).1 = some (Response.redirect "/") ∧
    handleRequest path s handler = Response.redirect "/" := by
  have hgate : (protect_routes path s).1 = some (Response.redirect "/") := by
    unfold protect_routes
    rcases hpath with h | h <;> simp [h, hs]
  exact ⟨hgate, by unfold handleRequest; rw [hgate]⟩

/-- Witness for C1 at the framework-internal path "/_dash/layout" and an
empty session: the handler's page is never returned. -/
theorem gate_blocks_unauthenticated_witness :
    (protect_routes "/_dash/layout" ⟨[]⟩).1 = some (Response.redirect "/") ∧
    handleRequest "/_dash/layout" ⟨[]⟩ (Response.page "protected content") =
      Response.redirect "/" :=
  gate_blocks_unauthenticated "/_dash/layout" ⟨[]⟩ (Response.page "protected content")
    (Or.inr (by decide)) (by decide)

/-- C2: Any login submission with both fields non-empty sets the session
flag `logged_in` to `true` and redirects to "/dashboard/", whatever the
field values are. -/
theorem login_accepts_any_nonempty (u p : String) (s : Session)
    (hu : u.isEmpty = false) (hp : p.isEmpty = false) :
    (login (some u) (some p) s).1.get "logged_in" = some true ∧
    (login (some u) (some p) s).2 = Response.redirect "/dashboard/" := by
  unfold login
  simp [truthyStr, hu, hp, Session.get_set]

/-- Witness for C2 with "a"/"a" and an empty session. -/
theorem login_accepts_any_nonempty_witness :
    (login (some "a") (some "a") ⟨[]⟩).1.get "logged_in" = some true ∧
    (login (some "a") (some "a") ⟨[]⟩).2 = Response.redirect "/dashboard/" :=
  login_accepts_any_nonempty "a" "a" ⟨[]⟩ (by decide) (by decide)

/-- C4: A login submission in which at least one field is empty (or
absent) leaves the session unchanged and re-renders the login page with
the inline error message, not a redirect. -/
theorem login_rejects_empty (u p : Option String) (s : Session)
    (h : truthyStr u = false ∨ truthyStr p = false) :
    login u p s =
      (s, Response.loginTemplate (some "Please enter any username and password")) := by
  unfold login
  rcases h with h | h <;> simp [h]

/-- Witness for C4: an empty password with a non-empty username. -/
theorem login_rejects_empty_witness :
    login (some "alice") (some "") ⟨[("logged_in", false)]⟩ =
      (⟨[("logged_in", false)]⟩,
       Response.loginTemplate (some "Please enter any username and password")) :=
  login_rejects_empty (some "alice") (some "") ⟨[("logged_in", false)]⟩
    (Or.inr (by decide))

/-- C5: `logout` clears all session state (so the flag is gone even if it
was never set), redirects to the login page, and is idempotent: applied
to its own result it yields the same session and the same redirect. -/
theorem logout_clears_and_idempotent (s : Session) :
    logout s = (Session.cleared, Response.redirect "/") ∧
    (logout s).1.get "logged_in" = none ∧
    logout (logout s).1 = logout s :=
  ⟨rfl, rfl, rfl⟩

/-- C6: The artifact load is all-or-nothing: if any of the three reads
fails, `loadData` replaces all three structures with their empty
defaults, discarding any artifact that had already loaded. -/
theorem loader_all_or_nothing (r1 r2 : Except String JVal)
    (rcsv : Except String DataFrame)
    (h : r1.isOk = false ∨ r2.isOk = false ∨ rcsv.isOk = false) :
    loadData r1 r2 rcsv = (defaultGroup, defaultGroup, emptyDF) := by
  unfold loadData tryLoad
  cases r1 <;> cases r2 <;> cases rcsv <;> simp_all [Except.isOk, Except.toBool]

/-- Witness for C6: the first document loads, the second read raises, the
table loads — everything is still replaced by the defaults. -/
theorem loader_all_or_nothing_witness :
    loadData (Except.ok fullGroup) (Except.error "FileNotFoundError")
        (Except.ok ⟨[10, 11, 12, 13], []⟩) =
      (defaultGroup, defaultGroup, emptyDF) :=
  loader_all_or_nothing (Except.ok fullGroup) (Except.error "FileNotFoundError")
    (Except.ok ⟨[10, 11, 12, 13], []⟩) (Or.inr (Or.inl (by decide)))

/-- C3 (failing evaluation): with all three artifact files absent the
loader does substitute the defaults, but building the first tab from the
default dictionary raises `KeyError: cluster_size`, because the fallback
dictionary lacks the `cluster_size`, `cluster_max`, `cluster_min`,
`cluster_avg` and `closeness` keys `render_tab` reads — layout
construction does not complete without raising. -/
theorem missing_artifacts_layout_raises :
    loadData (Except.error "FileNotFoundError") (Except.error "FileNotFoundError")
        (Except.error "FileNotFoundError") =
      (defaultGroup, defaultGroup, emptyDF) ∧
    buildLayout defaultGroup defaultGroup emptyDF 42 =
      Except.error "KeyError: cluster_size" :=
  ⟨rfl, rfl⟩

/-- C7: one seed value is threaded into layout construction, and whenever
the layout builds, the network charts of both resolution tabs carry that
identical seed. -/
theorem seed_shared_across_tabs (g1 g2 : JVal) (df : DataFrame) (seed : Nat)
    (L : Layout) (h : buildLayout g1 g2 df seed = Except.ok L) :
    L.tabs.map tabNetworkSeed = [some seed, some seed] := by
  unfold buildLayout at h
  split at h
  · exact absurd h (by simp)
  · rename_i t1 h1
    split at h
    · exact absurd h (by simp)
    · rename_i t2 h2
      cases h
      simp [render_tab_seed _ _ _ _ h1, render_tab_seed _ _ _ _ h2]

/-- Witness for C7: both tabs of the layout built from two well-formed
empty artifacts with seed 7 carry seed 7. -/
theorem seed_shared_across_tabs_witness :
    demoLayout.tabs.map tabNetworkSeed = [some 7, some 7] :=
  seed_shared_across_tabs fullGroup fullGroup emptyDF 7 demoLayout rfl

/-- C8: the gate treats a session with `logged_in` explicitly `false`
identically to one where the flag is absent: same gate outcome on every
path, and on protected paths both get the redirect to the login page. -/
theorem absent_flag_equals_false (path : String) (s1 s2 : Session)
    (h1 : s1.get "logged_in" = some false) (h2 : s2.get "logged_in" = none) :
    (protect_routes path s1).1 = (protect_routes path s2).1 ∧
    ((pyStartsWith path "/dashboard" = true ∨ pyStartsWith path "/_dash" = true) →
      (protect_routes path s1).1 = some (Response.redirect "/")) := by
  constructor
  · unfold protect_routes
    simp only [h1, h2, truthy]
    split <;> rfl
  · intro hpath
    unfold protect_routes
    rcases hpath with h | h <;> simp [h, h1, truthy]

/-- Witness for C8: explicit-false and absent-flag sessions on
"/dashboard/". -/
theorem absent_flag_equals_false_witness :
    (protect_routes "/dashboard/" ⟨[("logged_in", false)]⟩).1 =
      (protect_routes "/dashboard/" ⟨[]⟩).1 ∧
    ((pyStartsWith "/dashboard/" "/dashboard" = true ∨
        pyStartsWith "/dashboard/" "/_dash" = true) →
      (protect_routes "/dashboard/" ⟨[("logged_in", false)]⟩).1 =
        some (Response.redirect "/")) :=
  absent_flag_equals_false "/dashboard/" ⟨[("logged_in", false)]⟩ ⟨[]⟩
    (by decide) (by decide)

/-- C9: the gate is read-only: on every request, whichever branch it
takes, it returns the session exactly as it received it. -/
theorem gate_read_only (path : String) (s : Session) :
    (protect_routes path s).2 = s := by
  unfold protect_routes
  split
  · split <;> rfl
  · rfl

/-- C10: a request whose path starts with neither "/dashboard" nor
"/_dash" is never redirected by the gate, whatever the session: the
normal handler's response goes through. -/
theorem gate_passes_unprotected (path : String) (s : Session) (handler : Response)
    (h1 : pyStartsWith path "/dashboard" = false)
    (h2 : pyStartsWith path "/_dash" = false) :
    (protect_routes path s).1 = none ∧ handleRequest path s handler = handler := by
  unfold handleRequest protect_routes
  simp [h1, h2]

/-- Witness for C10: "/login" reaches its handler while unauthenticated. -/
theorem gate_passes_unprotected_witness :
    (protect_routes "/login" ⟨[]⟩).1 = none ∧
    handleRequest "/login" ⟨[]⟩ (Response.loginTemplate none) =
      Response.loginTemplate none :=
  gate_passes_unprotected "/login" ⟨[]⟩ (Response.loginTemplate none)
    (by decide) (by decide)

end NetworkAnalyzer
